import Mathlib

/-!
Shallow embedding of `src/inox2d/src/physics.rs` (the simple-physics core of
inox2d): the `SimplePhysicsProps` parameter set, the closed
`SimplePhysicsSystem` sum type and its dispatching `tick`, the
`SimplePhysics` driver, and `Puppet::update_physics`.

Modelling conventions:
- `f32` scalars are modelled as exact rationals (`ℚ`); none of the properties
  proved here depends on floating-point rounding.
- `glam::Vec2` is modelled as a pair of `F32` components, where `F32` keeps an
  explicit non-finite representation (`nan`, infinities), because the design's
  anchor-handling policy distinguishes finite from non-finite anchor values.
- The pendulum subsystem files (`pendulum/rigid.rs`, `pendulum/spring.rs`,
  `runge_kutta.rs`, `simple_physics.rs`) and the puppet/node/parameter modules
  are not part of the sources available here; the definitions that stand in
  for them are marked `Modelled from the spec:` and follow the design
  document's words.
-/

/-- A scalar `f32` value at interface boundaries where non-finite values are
semantically relevant: either a finite value (modelled exactly as a rational)
or one of the non-finite IEEE classes. -/
inductive F32 where
  | finite (val : ℚ)
  | posInf
  | negInf
  | nan
deriving DecidableEq

/-- Mirrors `f32::is_finite`. -/
def F32.isFinite : F32 → Bool
  | .finite _ => true
  | _ => false

/-- Extract the rational payload of a finite value (junk `0` on non-finite
inputs; only used under a finiteness guard). -/
def F32.toRat : F32 → ℚ
  | .finite v => v
  | _ => 0

/-- Model of `glam::Vec2` (a pair of `f32` components). -/
structure Vec2 where
  x : F32
  y : F32
deriving DecidableEq

/-- Mirrors `glam::Vec2::is_finite` (both components finite). -/
def Vec2.isFinite (v : Vec2) : Bool := v.x.isFinite && v.y.isFinite

/-- Mirrors `glam::Vec2::ZERO`. -/
def Vec2.zero : Vec2 := ⟨.finite 0, .finite 0⟩

/-- Mirrors `glam::Vec2::ONE`. -/
def Vec2.one : Vec2 := ⟨.finite 1, .finite 1⟩

/-- `SimplePhysicsProps` from `physics.rs` lines 44–64. Scalar fields are
modelled as exact rationals. -/
structure SimplePhysicsProps where
  gravity : ℚ
  offset_gravity : ℚ
  length : ℚ
  offset_length : ℚ
  frequency : ℚ
  offset_frequency : ℚ
  angle_damping : ℚ
  offset_angle_damping : ℚ
  length_damping : ℚ
  offset_length_damping : ℚ
  output_scale : Vec2
  offset_output_scale : Vec2
deriving DecidableEq

/-- `SimplePhysicsProps::final_angle_damping` (`physics.rs` lines 67–69). -/
def SimplePhysicsProps.final_angle_damping (p : SimplePhysicsProps) : ℚ :=
  p.angle_damping * p.offset_angle_damping

/-- `SimplePhysicsProps::final_length_damping` (`physics.rs` lines 71–73). -/
def SimplePhysicsProps.final_length_damping (p : SimplePhysicsProps) : ℚ :=
  p.length_damping * p.offset_length_damping

/-- `impl Default for SimplePhysicsProps` (`physics.rs` lines 76–93). -/
def SimplePhysicsProps.default : SimplePhysicsProps :=
  { gravity := 1
    length := 1
    frequency := 1
    angle_damping := 1/2
    length_damping := 1/2
    output_scale := Vec2.one
    offset_angle_damping := 1/2
    offset_length_damping := 1/2
    offset_gravity := 1
    offset_length := 1
    offset_frequency := 1
    offset_output_scale := Vec2.one }

/-- Modelled from the spec: the "small positive epsilon" of §7 ("Non-positive
`length` or `frequency`: clamp to a small positive epsilon"); the concrete
value lives in the absent pendulum sources. -/
def physicsEpsilon : ℚ := 1/1000000

/-- Modelled from the spec: clamp a non-positive parameter to
`physicsEpsilon` before use (§7, §4.2 "L ≤ 0 is invalid input — clamp to a
small positive epsilon to avoid division by zero"). -/
def clampEps (x : ℚ) : ℚ := if x ≤ 0 then physicsEpsilon else x

/-- Modelled from the spec: the effective rod/spring rest length used by a
tick, `final_length` clamped per §7. The base × offset product follows the
§3 invariant ("combined = base × offset"). -/
def SimplePhysicsProps.usedLength (p : SimplePhysicsProps) : ℚ :=
  clampEps (p.length * p.offset_length)

/-- Modelled from the spec: the effective resonant frequency used by a tick,
clamped per §7. -/
def SimplePhysicsProps.usedFrequency (p : SimplePhysicsProps) : ℚ :=
  clampEps (p.frequency * p.offset_frequency)

/-- Modelled from the spec: a rational stand-in for `(2π)²` in the spring
constant `k = (2π·f)²` of §4.3 (π is irrational; no claim under proof depends
on its value). -/
def twoPiSq : ℚ := 3948/100

/-- Modelled from the spec: the rigid pendulum state of §4.2 — angle θ and
angular velocity ω — plus the last-computed output, which §7 requires the
model to hold ("hold the previous output, skip the integration step") when
the anchor is non-finite. The source file `pendulum/rigid.rs` is absent. -/
structure RigidPendulumSystem where
  angle : ℚ
  angular_velocity : ℚ
  output : Vec2
deriving DecidableEq

/-- Modelled from the spec: `RigidPendulumSystem::default()` — the documented
default initial state, "rest state, zero velocity" (§4.4). -/
def RigidPendulumSystem.default : RigidPendulumSystem :=
  { angle := 0, angular_velocity := 0, output := Vec2.zero }

/-- Modelled from the spec: one rigid-pendulum tick (§4.2, §7). A non-finite
anchor holds the previous output and skips integration; the effective length
is clamped via `SimplePhysicsProps.usedLength`; the equation of motion
`θ'' = -(g/L)·sin θ - c·ω` is integrated explicitly with sin θ linearised to
θ, since no claim under proof depends on the trigonometric form or on the
integrator's order. -/
def RigidPendulumSystem.tick (sys : RigidPendulumSystem) (anchor : Vec2)
    (props : SimplePhysicsProps) (dt : ℚ) : RigidPendulumSystem × Vec2 :=
  if anchor.isFinite then
    let L := props.usedLength
    let g := props.gravity * props.offset_gravity
    let c := props.final_angle_damping
    let angle' := sys.angle + sys.angular_velocity * dt
    let av' := sys.angular_velocity + (-(g / L) * sys.angle - c * sys.angular_velocity) * dt
    let ox := (anchor.x.toRat + L * angle') * props.output_scale.x.toRat * props.offset_output_scale.x.toRat
    let oy := (anchor.y.toRat + L) * props.output_scale.y.toRat * props.offset_output_scale.y.toRat
    let out : Vec2 := ⟨.finite ox, .finite oy⟩
    ({ angle := angle', angular_velocity := av', output := out }, out)
  else
    (sys, sys.output)

/-- Modelled from the spec: the spring pendulum state of §4.3 — 2D
displacement from the rest position and its velocity — plus the held output
(§7), as for the rigid variant. The source file `pendulum/spring.rs` is
absent. -/
structure SpringPendulumSystem where
  position_x : ℚ
  position_y : ℚ
  velocity_x : ℚ
  velocity_y : ℚ
  output : Vec2
deriving DecidableEq

/-- Modelled from the spec: `SpringPendulumSystem::default()` — "rest state,
zero velocity" (§4.4). -/
def SpringPendulumSystem.default : SpringPendulumSystem :=
  { position_x := 0, position_y := 0, velocity_x := 0, velocity_y := 0,
    output := Vec2.zero }

/-- Modelled from the spec: one spring-pendulum tick (§4.3, §7). A non-finite
anchor holds the previous output and skips integration; the effective length
and frequency are clamped; the damped oscillator `x'' = -k·x - c·x'` with
`k = (2π·f)²` is integrated explicitly. -/
def SpringPendulumSystem.tick (sys : SpringPendulumSystem) (anchor : Vec2)
    (props : SimplePhysicsProps) (dt : ℚ) : SpringPendulumSystem × Vec2 :=
  if anchor.isFinite then
    let L := props.usedLength
    let f := props.usedFrequency
    let k := twoPiSq * f * f
    let c := props.final_length_damping
    let px' := sys.position_x + sys.velocity_x * dt
    let py' := sys.position_y + sys.velocity_y * dt
    let vx' := sys.velocity_x + (-k * sys.position_x - c * sys.velocity_x) * dt
    let vy' := sys.velocity_y + (-k * sys.position_y - c * sys.velocity_y) * dt
    let ox := (anchor.x.toRat + px') * props.output_scale.x.toRat * props.offset_output_scale.x.toRat
    let oy := (anchor.y.toRat + L + py') * props.output_scale.y.toRat * props.offset_output_scale.y.toRat
    let out : Vec2 := ⟨.finite ox, .finite oy⟩
    ({ position_x := px', position_y := py', velocity_x := vx', velocity_y := vy',
       output := out }, out)
  else
    (sys, sys.output)

/-- `SimplePhysicsSystem` (`physics.rs` lines 14–22): the closed sum type
with exactly the variants `RigidPendulum` and `SpringPendulum`. -/
inductive SimplePhysicsSystem where
  | rigidPendulum (system : RigidPendulumSystem)
  | springPendulum (system : SpringPendulumSystem)
deriving DecidableEq

/-- `SimplePhysicsSystem::new_rigid_pendulum` (`physics.rs` lines 25–27). -/
def SimplePhysicsSystem.new_rigid_pendulum : SimplePhysicsSystem :=
  .rigidPendulum RigidPendulumSystem.default

/-- `SimplePhysicsSystem::new_spring_pendulum` (`physics.rs` lines 29–31). -/
def SimplePhysicsSystem.new_spring_pendulum : SimplePhysicsSystem :=
  .springPendulum SpringPendulumSystem.default

/-- `SimplePhysicsSystem::tick` (`physics.rs` lines 33–41): exhaustive enum
dispatch to the contained variant's own tick. The Rust `&mut self` receiver
plus returned `Vec2` becomes an explicit (new system, output) pair. -/
def SimplePhysicsSystem.tick (s : SimplePhysicsSystem) (anchor : Vec2)
    (props : SimplePhysicsProps) (dt : ℚ) : SimplePhysicsSystem × Vec2 :=
  match s with
  | .rigidPendulum system =>
    let r := system.tick anchor props dt
    (.rigidPendulum r.1, r.2)
  | .springPendulum system =>
    let r := system.tick anchor props dt
    (.springPendulum r.1, r.2)

/-- The output value a system is currently holding (the `output` field of
either variant's state). -/
def SimplePhysicsSystem.stored_output : SimplePhysicsSystem → Vec2
  | .rigidPendulum system => system.output
  | .springPendulum system => system.output

/-- `ParamMapMode` (`physics.rs` lines 95–99). -/
inductive ParamMapMode where
  | angleLength
  | xy
deriving DecidableEq

/-- `ParamUuid` (from `crate::params`, absent here): an opaque identifier,
modelled as a natural number. -/
abbrev ParamUuid := ℕ

/-- `SimplePhysics` (`physics.rs` lines 101–116): the physics driver binding
one model instance, its mapping mode, its parameter set, the `local_only`
flag, and the last anchor and output. -/
structure SimplePhysics where
  param : ParamUuid
  system : SimplePhysicsSystem
  map_mode : ParamMapMode
  props : SimplePhysicsProps
  local_only : Bool
  anchor : Vec2
  output : Vec2
deriving DecidableEq

/-- `SimplePhysics::tick` (`physics.rs` lines 118–122):
`self.output = self.system.tick(self.anchor, &self.props, dt)`; the `&mut`
receiver becomes an explicit returned driver. -/
def SimplePhysics.tick (d : SimplePhysics) (dt : ℚ) : SimplePhysics :=
  let r := d.system.tick d.anchor d.props dt
  { d with system := r.1, output := r.2 }

/-- A driven tick sequence: each step stores the given anchor into the driver
and calls `SimplePhysics.tick` with the given dt, recording the resulting
outputs. This is the replay harness for the determinism property. -/
def SimplePhysics.run (d : SimplePhysics) : List (Vec2 × ℚ) → List Vec2
  | [] => []
  | (a, dt) :: rest =>
    let d' := SimplePhysics.tick { d with anchor := a } dt
    d'.output :: d'.run rest

/-- `InoxData` (from `crate::nodes::node_data`, absent here): only the
`SimplePhysics` variant is inspected by `physics.rs`; every other variant
(`Node`, `Part`, `Composite`, …) is collapsed into `other`. -/
inductive InoxData where
  | simplePhysics (driver : SimplePhysics)
  | other
deriving DecidableEq

/-- Whether a node's data is the `SimplePhysics` variant. -/
def InoxData.isSimplePhysics : InoxData → Bool
  | .simplePhysics _ => true
  | .other => false

/-- A node of the puppet graph (from `crate::nodes`, absent here): the `uuid`
and `data` fields are the ones `update_physics` reads. -/
structure Node where
  uuid : ℕ
  data : InoxData
deriving DecidableEq

/-- Modelled from the spec: the per-node render context (from
`crate::render_ctx`, absent here). §4.5 step (1): the driver's anchor is
obtained from the node-graph collaborator, "respecting `local_only`", so the
model carries a world-space and a local-space translation. -/
structure NodeRenderCtx where
  trans : Vec2
  localTrans : Vec2
deriving DecidableEq

/-- The render context: `node_render_ctxs` is a map from node uuid to
`NodeRenderCtx`, modelled as an association list. -/
structure RenderCtx where
  node_render_ctxs : List (ℕ × NodeRenderCtx)
deriving DecidableEq

/-- The puppet (from `crate::puppet`, absent here): the fields
`update_physics` touches — the driver uuid list, the node collection, the
render context, and the external parameter store written via `set_param`. -/
structure Puppet where
  drivers : List ℕ
  nodes : List Node
  render_ctx : RenderCtx
  params : List (ℕ × Vec2)
deriving DecidableEq

/-- `InoxNodeTree::get_node_mut` (absent here): look up a node by uuid; the
lookup half of the `&mut` access. -/
def Puppet.get_node (p : Puppet) (uuid : ℕ) : Option Node :=
  p.nodes.find? (fun n => n.uuid == uuid)

/-- The write-back half of `get_node_mut`: replace the first node with the
given uuid (the same node `get_node` finds). -/
def setNode : List Node → ℕ → Node → List Node
  | [], _, _ => []
  | n :: rest, u, n' => if n.uuid == u then n' :: rest else n :: setNode rest u n'

/-- Modelled from the spec: `Puppet::set_param` (from `crate::params`, absent
here) — §4.5 step (4), "forward the vector to the external parameter-write
interface identified by the driver's parameter reference"; an isolated write
per parameter id (§5). -/
def Puppet.set_param (p : Puppet) (u : ParamUuid) (v : Vec2) : Puppet :=
  { p with params := (u, v) :: p.params.filter (fun e => e.1 != u) }

/-- Modelled from the spec: `SimplePhysics::update` (from
`simple_physics.rs`, absent here) — §4.5 steps (1)–(3): read the anchor from
the node's render context respecting `local_only`, tick the model with `dt`,
and return the updated driver with its output. -/
def SimplePhysics.update (d : SimplePhysics) (dt : ℚ) (nrc : NodeRenderCtx) :
    SimplePhysics × Vec2 :=
  let anchor := if d.local_only then nrc.localTrans else nrc.trans
  let d' := SimplePhysics.tick { d with anchor := anchor } dt
  (d', d'.output)

/-- The body of the `update_physics` loop (`physics.rs` lines 128–140) for
one driver uuid. `none` models a panic: the source indexes
`self.render_ctx.node_render_ctxs[&driver.uuid]` with the panicking `Index`
operator, while a missing node (`let Some(driver) = ... else { continue }`)
or non-`SimplePhysics` data (`let InoxData::SimplePhysics(..) = ... else
{ continue }`) skips the iteration. -/
def Puppet.update_physics_step (p : Puppet) (dt : ℚ) (driver_uuid : ℕ) :
    Option Puppet :=
  match p.get_node driver_uuid with
  | none => some p
  | some node =>
    match node.data with
    | InoxData.simplePhysics system =>
      match List.lookup node.uuid p.render_ctx.node_render_ctxs with
      | none => none
      | some nrc =>
        let r := system.update dt nrc
        let p1 := { p with
          nodes := setNode p.nodes driver_uuid { node with data := InoxData.simplePhysics r.1 } }
        some (p1.set_param r.1.param r.2)
    | InoxData.other => some p

/-- `Puppet::update_physics` (`physics.rs` lines 127–141): iterate the
snapshot `self.drivers.clone()` and run the loop body for each uuid; `none`
models a panic aborting the whole call. -/
def Puppet.update_physics (p : Puppet) (dt : ℚ) : Option Puppet :=
  p.drivers.foldlM (fun q u => q.update_physics_step dt u) p

/-! Concrete inputs used by witnesses and counterexamples. -/

/-- A concrete driver whose render context will be missing. -/
def c2Driver : SimplePhysics :=
  { param := 7, system := SimplePhysicsSystem.new_rigid_pendulum,
    map_mode := .angleLength, props := SimplePhysicsProps.default,
    local_only := false, anchor := Vec2.zero, output := Vec2.zero }

/-- A concrete puppet with one SimplePhysics driver node (uuid 1) and an
empty `node_render_ctxs` map. -/
def c2Puppet : Puppet :=
  { drivers := [1], nodes := [{ uuid := 1, data := .simplePhysics c2Driver }],
    render_ctx := { node_render_ctxs := [] }, params := [] }

/-- A concrete puppet whose only node (uuid 2) has non-SimplePhysics data. -/
def c3Puppet : Puppet :=
  { drivers := [2], nodes := [{ uuid := 2, data := .other }],
    render_ctx := { node_render_ctxs := [] }, params := [] }

/-- A concrete driver for the determinism replay. -/
def c4Driver : SimplePhysics :=
  { param := 3, system := SimplePhysicsSystem.new_spring_pendulum,
    map_mode := .xy, props := SimplePhysicsProps.default,
    local_only := true, anchor := Vec2.zero, output := Vec2.zero }

/-- A concrete driver whose anchor is non-finite (NaN x-component). -/
def c5Driver : SimplePhysics :=
  { param := 4, system := SimplePhysicsSystem.new_rigid_pendulum,
    map_mode := .angleLength, props := SimplePhysicsProps.default,
    local_only := false, anchor := ⟨.nan, .finite 0⟩, output := Vec2.zero }

/-- A concrete parameter set with non-positive length and frequency. -/
def c7Props : SimplePhysicsProps :=
  { SimplePhysicsProps.default with length := -1, frequency := 0 }

/-! Claim theorems. -/

/-- C1: for every `SimplePhysicsProps` value, `final_angle_damping()` returns
exactly `angle_damping * offset_angle_damping` and `final_length_damping()`
returns exactly `length_damping * offset_length_damping` — the product, never
the sum, of base and offset (finite `f32` fields are modelled as exact
rationals). -/
theorem C1_final_damping_is_product (p : SimplePhysicsProps) :
    p.final_angle_damping = p.angle_damping * p.offset_angle_damping ∧
    p.final_length_damping = p.length_damping * p.offset_length_damping :=
  ⟨rfl, rfl⟩

/-- C2 counterexample: a puppet with a SimplePhysics driver whose render
context is missing from `node_render_ctxs` makes `update_physics` panic
(modelled as `none`) instead of skipping the driver and returning normally:
the source indexes the map with the panicking `Index` operator. -/
theorem C2_counterexample_missing_render_ctx_panics :
    Puppet.update_physics c2Puppet 1 = none := rfl

/-- C2 (amended): a driver uuid whose node lookup fails or whose node data is
not SimplePhysics is skipped, but when the node is present with SimplePhysics
data and its render context is missing from `node_render_ctxs`, the loop body
panics — `update_physics` does not return normally for that frame. -/
theorem C2_missing_render_ctx_step_panics (p : Puppet) (dt : ℚ) (u : ℕ)
    (node : Node) (d : SimplePhysics)
    (h1 : p.get_node u = some node)
    (h2 : node.data = InoxData.simplePhysics d)
    (h3 : List.lookup node.uuid p.render_ctx.node_render_ctxs = none) :
    p.update_physics_step dt u = none := by
  simp [Puppet.update_physics_step, h1, h2, h3]

/-- C2 witness: the amended theorem applied to the concrete puppet. -/
theorem C2_missing_render_ctx_step_panics_witness :
    Puppet.update_physics_step c2Puppet 1 1 = none :=
  C2_missing_render_ctx_step_panics c2Puppet 1 1
    { uuid := 1, data := .simplePhysics c2Driver } c2Driver rfl rfl rfl

/-- C3: a driver uuid for which `get_node_mut` returns no node, or whose node
data is not SimplePhysics, is skipped for the frame: the loop body returns the
puppet unchanged — no error, no mutation of driver state, no parameter
write. -/
theorem C3_missing_or_non_physics_node_skipped (p : Puppet) (dt : ℚ) (u : ℕ)
    (h : p.get_node u = none ∨
      ∃ node, p.get_node u = some node ∧ node.data.isSimplePhysics = false) :
    p.update_physics_step dt u = some p := by
  rcases h with h | ⟨node, h1, h2⟩
  · simp [Puppet.update_physics_step, h]
  · cases hd : node.data with
    | simplePhysics d => rw [hd] at h2; simp [InoxData.isSimplePhysics] at h2
    | other => simp [Puppet.update_physics_step, h1, hd]

/-- C3 witness: the theorem applied to the concrete puppet whose node 2 has
non-SimplePhysics data. -/
theorem C3_missing_or_non_physics_node_skipped_witness :
    Puppet.update_physics_step c3Puppet 1 2 = some c3Puppet :=
  C3_missing_or_non_physics_node_skipped c3Puppet 1 2
    (Or.inr ⟨{ uuid := 2, data := .other }, rfl, rfl⟩)

/-- C4: driver ticking is deterministic — two runs from identical driver
state (system state, props, anchor) fed identical anchor and dt sequences
produce identical output sequences; the embedded tick is a pure function of
its inputs, with no hidden randomness or wall-clock dependency. -/
theorem C4_tick_deterministic (d1 d2 : SimplePhysics)
    (ins1 ins2 : List (Vec2 × ℚ))
    (hd : d1 = d2) (hi : ins1 = ins2) :
    d1.run ins1 = d2.run ins2 := by
  subst hd; subst hi; rfl

/-- C4 witness: the theorem applied to a concrete driver and input
sequence. -/
theorem C4_tick_deterministic_witness :
    SimplePhysics.run c4Driver [(Vec2.one, 1/60), (Vec2.zero, 1/60)] =
      SimplePhysics.run c4Driver [(Vec2.one, 1/60), (Vec2.zero, 1/60)] :=
  C4_tick_deterministic c4Driver c4Driver _ _ rfl rfl

/-- C5: when the driver's anchor is non-finite and its output agrees with the
output its system is holding (true after every tick), a tick leaves the
driver entirely unchanged: the previous output is held and the integration
step is skipped, so no NaN is propagated into the output. -/
theorem C5_nonfinite_anchor_holds_output (d : SimplePhysics) (dt : ℚ)
    (h1 : d.anchor.isFinite = false)
    (h2 : d.output = d.system.stored_output) :
    d.tick dt = d := by
  cases d with
  | mk param system map_mode props local_only anchor output =>
    cases system with
    | rigidPendulum s =>
      simp only [SimplePhysicsSystem.stored_output] at h2
      simp [SimplePhysics.tick, SimplePhysicsSystem.tick,
        RigidPendulumSystem.tick, h1, h2]
    | springPendulum s =>
      simp only [SimplePhysicsSystem.stored_output] at h2
      simp [SimplePhysics.tick, SimplePhysicsSystem.tick,
        SpringPendulumSystem.tick, h1, h2]

/-- C5 witness: the theorem applied to the concrete driver with a NaN anchor
component. -/
theorem C5_nonfinite_anchor_holds_output_witness :
    SimplePhysics.tick c5Driver 1 = c5Driver :=
  C5_nonfinite_anchor_holds_output c5Driver 1 rfl rfl

/-- C6: `SimplePhysicsSystem` is a closed sum type with exactly the variants
RigidPendulum and SpringPendulum, and `tick` dispatches by exhaustive match,
with no default branch, to exactly the contained variant's own tick. -/
theorem C6_closed_sum_exhaustive_dispatch :
    (∀ s : SimplePhysicsSystem,
      (∃ r, s = .rigidPendulum r) ∨ (∃ g, s = .springPendulum g)) ∧
    (∀ (r : RigidPendulumSystem) (anchor : Vec2) (props : SimplePhysicsProps)
        (dt : ℚ),
      SimplePhysicsSystem.tick (.rigidPendulum r) anchor props dt =
        ((.rigidPendulum (r.tick anchor props dt).1 : SimplePhysicsSystem),
          (r.tick anchor props dt).2)) ∧
    (∀ (g : SpringPendulumSystem) (anchor : Vec2) (props : SimplePhysicsProps)
        (dt : ℚ),
      SimplePhysicsSystem.tick (.springPendulum g) anchor props dt =
        ((.springPendulum (g.tick anchor props dt).1 : SimplePhysicsSystem),
          (g.tick anchor props dt).2)) := by
  refine ⟨fun s => ?_, fun r anchor props dt => rfl, fun g anchor props dt => rfl⟩
  cases s with
  | rigidPendulum r => exact Or.inl ⟨r, rfl⟩
  | springPendulum g => exact Or.inr ⟨g, rfl⟩

/-- C7: with non-positive effective length or frequency, the model clamps the
offending value to the small positive epsilon before use, so the values the
tick divides by are strictly positive — no division by zero. -/
theorem C7_nonpositive_length_frequency_clamped (p : SimplePhysicsProps)
    (h : p.length * p.offset_length ≤ 0 ∨ p.frequency * p.offset_frequency ≤ 0) :
    0 < p.usedLength ∧ 0 < p.usedFrequency ∧
    (p.length * p.offset_length ≤ 0 → p.usedLength = physicsEpsilon) ∧
    (p.frequency * p.offset_frequency ≤ 0 → p.usedFrequency = physicsEpsilon) := by
  have hpos : ∀ x : ℚ, 0 < clampEps x := by
    intro x
    unfold clampEps physicsEpsilon
    split
    · norm_num
    · exact not_le.mp (by assumption)
  refine ⟨hpos _, hpos _, fun hl => ?_, fun hf => ?_⟩
  · unfold SimplePhysicsProps.usedLength clampEps
    rw [if_pos hl]
  · unfold SimplePhysicsProps.usedFrequency clampEps
    rw [if_pos hf]

/-- C7 witness: the theorem applied to the concrete parameter set with
negative length and zero frequency. -/
theorem C7_nonpositive_length_frequency_clamped_witness :
    0 < c7Props.usedLength ∧ 0 < c7Props.usedFrequency ∧
    (c7Props.length * c7Props.offset_length ≤ 0 →
      c7Props.usedLength = physicsEpsilon) ∧
    (c7Props.frequency * c7Props.offset_frequency ≤ 0 →
      c7Props.usedFrequency = physicsEpsilon) :=
  C7_nonpositive_length_frequency_clamped c7Props
    (Or.inl (by norm_num [c7Props, SimplePhysicsProps.default]))

/-- C8: `new_rigid_pendulum` and `new_spring_pendulum` return the
corresponding variant initialised to its default initial state: rest state
(zero angle / zero displacement) with zero velocity, and zero held output. -/
theorem C8_construction_defaults :
    SimplePhysicsSystem.new_rigid_pendulum =
      .rigidPendulum ⟨0, 0, Vec2.zero⟩ ∧
    SimplePhysicsSystem.new_spring_pendulum =
      .springPendulum ⟨0, 0, 0, 0, Vec2.zero⟩ :=
  ⟨rfl, rfl⟩

/-- C9: the Default value of `SimplePhysicsProps` sets `offset_gravity`,
`offset_length`, and `offset_frequency` to 1 but `offset_angle_damping` and
`offset_length_damping` to 0.5, so the default parameter set has
`final_angle_damping() = final_length_damping() = 0.25`, not the base damping
value 0.5. -/
theorem C9_default_final_damping_quarter :
    SimplePhysicsProps.default.offset_gravity = 1 ∧
    SimplePhysicsProps.default.offset_length = 1 ∧
    SimplePhysicsProps.default.offset_frequency = 1 ∧
    SimplePhysicsProps.default.offset_angle_damping = 1/2 ∧
    SimplePhysicsProps.default.offset_length_damping = 1/2 ∧
    SimplePhysicsProps.default.final_angle_damping = 1/4 ∧
    SimplePhysicsProps.default.final_length_damping = 1/4 ∧
    SimplePhysicsProps.default.final_angle_damping ≠ 1/2 ∧
    SimplePhysicsProps.default.final_length_damping ≠ 1/2 := by
  refine ⟨rfl, rfl, rfl, rfl, rfl, ?_, ?_, ?_, ?_⟩ <;>
    norm_num [SimplePhysicsProps.default, SimplePhysicsProps.final_angle_damping,
      SimplePhysicsProps.final_length_damping]

/-- C10: `SimplePhysics::tick` mutates only the model's internal system state
and the output field — the `param`, `map_mode`, `props`, `local_only`, and
`anchor` fields of the driver are unchanged for every driver state and
dt. -/
theorem C10_tick_mutates_only_system_and_output (d : SimplePhysics) (dt : ℚ) :
    (d.tick dt).param = d.param ∧
    (d.tick dt).map_mode = d.map_mode ∧
    (d.tick dt).props = d.props ∧
    (d.tick dt).local_only = d.local_only ∧
    (d.tick dt).anchor = d.anchor :=
  ⟨rfl, rfl, rfl, rfl, rfl⟩
